import Mathlib

/-!
Shallow embedding of `src/mongo/s/strategy.cpp` (the mongos request router):
query routing (`Strategy::queryOp`), get-more continuation (`Strategy::getMore`),
command dispatch with staleness retry (`Strategy::clientCommandOp`), the
special diagnostic namespaces (`Strategy::handleSpecialNamespaces`), and the
batch write loop (`Strategy::writeOp`).

External collaborators (authorization, the parallel cluster cursor, the wire
protocol) are represented by explicit parameters; machine integers are `Int`
and `Nat`; exceptions become explicit result constructors.
-/

set_option autoImplicit false

namespace MongoS

/-! ## A minimal BSON document model

Only the shapes the router inspects are needed: strings, integers and nested
documents.  A document is an ordered field list, as in BSON. -/

inductive BSONValue : Type where
  | str : String → BSONValue
  | int : Int → BSONValue
  | obj : List (String × BSONValue) → BSONValue

abbrev BSONDoc := List (String × BSONValue)

/-- First field whose name matches, as `BSONObj::getField`. -/
def getField (o : BSONDoc) (name : String) : Option BSONValue :=
  o.lookup name

/-- Field presence, `BSONObj::hasField`. -/
def hasField (o : BSONDoc) (name : String) : Bool :=
  (o.lookup name).isSome

/-! ## C string helpers used by the router -/

/-- Split a character list at the first occurrence of `sep`
(`std::string::find` + `substr`): `none` when `sep` does not occur. -/
def splitAtFirst (sep : Char) : List Char → Option (List Char × List Char)
  | [] => none
  | c :: rest =>
    if c = sep then some ([], rest)
    else (splitAtFirst sep rest).map fun p => (c :: p.1, p.2)

/-- Whitespace as recognized by C `atoi`/`strtol`. -/
def isSpaceChar (c : Char) : Bool :=
  c = ' ' || c = '\t' || c = '\n' || c = '\x0b' || c = '\x0c' || c = '\r'

/-- Accumulate a decimal digit run, stopping at the first non-digit. -/
def atoiDigits : List Char → Int → Int
  | [], acc => acc
  | c :: rest, acc =>
    if c.isDigit then atoiDigits rest (acc * 10 + ((c.toNat - '0'.toNat : Nat) : Int))
    else acc

/-- C `atoi`: skip whitespace, optional sign, leading digit run; `0` when no
digits are found.  (Overflow is undefined in C and not modelled; the router
passes short operation-id strings.) -/
def atoi (cs : List Char) : Int :=
  let t := cs.dropWhile isSpaceChar
  match t with
  | '-' :: rest => - atoiDigits rest 0
  | '+' :: rest => atoiDigits rest 0
  | _ => atoiDigits t 0

/-- C `strstr(s, pat) != NULL`: `pat` occurs as a contiguous substring of `s`. -/
def containsSublist (pat : List Char) : List Char → Bool
  | [] => pat.isEmpty
  | c :: rest => pat.isPrefixOf (c :: rest) || containsSublist pat rest

/-- The `strstr(ns, ".$cmd")` test as used at strategy.cpp:84. -/
def nsContainsCmd (ns : String) : Bool :=
  containsSublist ".$cmd".data ns.data

/-- Namespace database part, `NamespaceString::db()`: the part before the first dot (the whole string
when there is no dot). -/
def nsDB (ns : String) : String :=
  match splitAtFirst '.' ns.data with
  | some (d, _) => String.mk d
  | none => ns

/-- Namespace collection part, `NamespaceString::coll()`: the part after the first dot. -/
def nsColl (ns : String) : String :=
  match splitAtFirst '.' ns.data with
  | some (_, c) => String.mk c
  | none => ""

/-- Command namespace, `NamespaceString::getCommandNS()`: `db() + ".$cmd"`. -/
def getCommandNS (ns : String) : String :=
  nsDB ns ++ ".$cmd"

/-! ## Command unwrapping (strategy.cpp:220-247)

`Strategy::clientCommandOp` inspects the first element of the inbound command
document: when it is an object named `query` or `$query`, the embedded object
replaces the command; a top-level read-preference field is folded into the
unwrapped command under `$queryOptions` rather than dropped. -/

/-- The test on the first element name: `fieldName()[0] == '$' ?
str::equals("query", fieldName()+1) : str::equals("query", fieldName())`. -/
def isQueryFieldName (name : String) : Bool :=
  match name.data with
  | [] => false
  | c :: rest => if c = '$' then String.mk rest = "query" else name = "query"

/-- The read-preference field name, `Query::ReadPrefField.name()`. -/
def readPrefFieldName : String := "$readPreference"

/-- The unwrap step of `Strategy::clientCommandOp` run on `q.query`. -/
def unwrapCommand (cmdObj : BSONDoc) : BSONDoc :=
  match cmdObj with
  | (name, BSONValue.obj embedded) :: _ =>
    if isQueryFieldName name then
      match getField cmdObj readPrefFieldName with
      | some rp =>
        embedded ++ [("$queryOptions", BSONValue.obj [(readPrefFieldName, rp)])]
      | none => embedded
    else cmdObj
  | _ => cmdObj

/-! ## The killop special namespace (strategy.cpp:331-365)

`Strategy::handleSpecialNamespaces`, branch for `$cmd.sys.killop`: the reply
document built into `b`, and the shard (with parsed local op id) the router
contacts, if any. -/

structure KillopOutcome where
  reply : BSONDoc
  contacted : Option (String × Int)

/-- The killop branch, given the `"op"` element of the inbound query
document.  A non-string operand or an operand without a colon appends an
`err` field and contacts no shard; otherwise the operand is split at the
first colon, the prefix names the shard and the suffix is parsed by `atoi`. -/
def handleKillop (opElem : BSONValue) : KillopOutcome :=
  match opElem with
  | BSONValue.str s =>
    match splitAtFirst ':' s.data with
    | none =>
      { reply := [("op", opElem), ("err", BSONValue.str "bad opid")], contacted := none }
    | some (pre, post) =>
      let shard := String.mk pre
      let opid := atoi post
      { reply := [("op", opElem), ("shard", BSONValue.str shard),
                  ("shardid", BSONValue.int opid)],
        contacted := some (shard, opid) }
  | _ =>
    { reply := [("err", BSONValue.str "bad op"), ("op", opElem)], contacted := none }

/-! ## The staleness retry loop (strategy.cpp:217-274)

`Strategy::clientCommandOp` after the special-namespace dispatch: `int loops =
5; while (true)` with `catch (StaleConfigException)` doing `if (loops <= 0)
throw e; loops--; ... ShardConnection::checkMyConnectionVersions(staleNS); if
(loops < 4) versionManager.forceRemoteCheckShardVersionCB(staleNS);`.  The
command execution is abstracted as a function from the attempt index (0-based)
to its outcome. -/

inductive AttemptResult : Type where
  | success
  | stale (ns : String)
  | otherError
  deriving Repr, DecidableEq

inductive LoopOutcome : Type where
  | replied
  | errorReplied
  | rethrownStale (ns : String)
  deriving Repr, DecidableEq

/-- Trace of one run of the retry loop: total attempts executed, the
connection-version checks and forced remote refreshes performed, each tagged
with the 0-based index of the failed attempt it follows, and the outcome. -/
structure LoopTrace : Type where
  attempts : Nat
  checks : List (Nat × String)
  refreshes : List (Nat × String)
  outcome : LoopOutcome
  deriving Repr, DecidableEq

/-- One iteration of the `while (true)` body, recursing on the `loops`
counter; `i` is the current attempt's 0-based index and `qns` is `q.ns`. -/
def retryGo (exec : Nat → AttemptResult) (qns : String) : Nat → Nat → LoopTrace
  | i, 0 =>
    match exec i with
    | AttemptResult.success => ⟨i + 1, [], [], LoopOutcome.replied⟩
    | AttemptResult.otherError => ⟨i + 1, [], [], LoopOutcome.errorReplied⟩
    | AttemptResult.stale ns => ⟨i + 1, [], [], LoopOutcome.rethrownStale ns⟩
  | i, Nat.succ l' =>
    match exec i with
    | AttemptResult.success => ⟨i + 1, [], [], LoopOutcome.replied⟩
    | AttemptResult.otherError => ⟨i + 1, [], [], LoopOutcome.errorReplied⟩
    | AttemptResult.stale ns =>
      let staleNS := if ns = "" then qns else ns
      let rest := retryGo exec qns (i + 1) l'
      ⟨rest.attempts, (i, staleNS) :: rest.checks,
       (if l' < 4 then [(i, staleNS)] else []) ++ rest.refreshes, rest.outcome⟩

/-- The retry loop of `Strategy::clientCommandOp`, started with `loops = 5`. -/
def clientCommandRetryLoop (exec : Nat → AttemptResult) (qns : String) : LoopTrace :=
  retryGo exec qns 0 5

/-! ## Batch writes (strategy.cpp:511-567)

`Strategy::writeOp` iterates the upconverted `BatchedCommandRequest`s, rewrites
each namespace for the command layer, executes, and — when the request is
ordered and `batchErrorToLastError` reported a non-write-concern error — breaks
out of the loop.  Per-request execution outcomes are abstracted as a function
from the request index to the `hadError` flag. -/

structure BatchSubRequest : Type where
  ns : String
  ordered : Bool
  deriving Repr, DecidableEq

/-- One sub-request as actually executed: its index, the command namespace it
is run against (`fullNS.getCommandNS()`), and the bare collection name the
request is rewritten to (`fullNS.coll()`). -/
structure ExecutedSub : Type where
  idx : Nat
  cmdNS : String
  collName : String
  deriving Repr, DecidableEq

/-- The `for` loop of `Strategy::writeOp`, recording the executed
sub-requests in order; `i` is the index of the head request. -/
def writeOpRun (hadError : Nat → Bool) : List BatchSubRequest → Nat → List ExecutedSub
  | [], _ => []
  | req :: rest, i =>
    { idx := i, cmdNS := getCommandNS req.ns, collName := nsColl req.ns } ::
      (if req.ordered && hadError i then [] else writeOpRun hadError rest (i + 1))

/-- Entry point `Strategy::writeOp` on an upconverted request list. -/
def writeOp (hadError : Nat → Bool) (requests : List BatchSubRequest) : List ExecutedSub :=
  writeOpRun hadError requests 0

/-! ## Cursor cache and time-budget sentinels

The two sentinel constants come from `mongo/db/max_time.h`, which is not part
of this source fragment; only their role is fixed by the spec. -/

/-- Modelled from the spec: the "already expired" remaining-budget sentinel
(`kMaxTimeCursorTimeLimitExpired` from `max_time.h`, outside this fragment).
Any negative value distinct from the "no limit" sentinel behaves identically
in the router code. -/
def kMaxTimeCursorTimeLimitExpired : Int := -1

/-- Modelled from the spec: the "no limit" remaining-budget sentinel
(`kMaxTimeCursorNoTimeLimit` from `max_time.h`, outside this fragment). -/
def kMaxTimeCursorNoTimeLimit : Int := -2

/-- One merged (multi-shard) cursor as held by the cursor cache: the running
count of documents already sent (`ShardedClientCursor::getTotalSent`), the
documents the underlying cluster cursor still has, and the remaining time
budget stored alongside it (`CursorCache::storeMaxTimeMS`). -/
structure MergedCursorEntry : Type where
  totalSent : Nat
  remainingDocs : Nat
  maxTimeMS : Int
  deriving Repr, DecidableEq

/-- The process-wide cursor cache: remote passthrough references keyed by
cursor id (`CursorCache::getRef`, a host string) and merged sharded cursors
keyed by cursor id (`CursorCache::get` / `getMaxTimeMS`). -/
structure CursorCache : Type where
  refs : List (Int × String)
  merged : List (Int × MergedCursorEntry)
  deriving Repr, DecidableEq

/-- Lookup `CursorCache::getRef`: the remembered host, or `""` when absent. -/
def CursorCache.getRef (c : CursorCache) (id : Int) : String :=
  (c.refs.lookup id).getD ""

/-- Lookup `CursorCache::get`. -/
def CursorCache.get (c : CursorCache) (id : Int) : Option MergedCursorEntry :=
  c.merged.lookup id

/-- Lookup `CursorCache::getMaxTimeMS` for a stored merged cursor (the value is only
consulted when the cursor is present). -/
def CursorCache.getMaxTimeMS (c : CursorCache) (id : Int) : Int :=
  match c.merged.lookup id with
  | some e => e.maxTimeMS
  | none => kMaxTimeCursorNoTimeLimit

/-- Eviction `CursorCache::remove`: drop a merged cursor entry. -/
def CursorCache.remove (c : CursorCache) (id : Int) : CursorCache :=
  { c with merged := c.merged.filter fun p => p.1 != id }

/-- Eviction `CursorCache::removeRef`: drop a remote passthrough reference. -/
def CursorCache.removeRef (c : CursorCache) (id : Int) : CursorCache :=
  { c with refs := c.refs.filter fun p => p.1 != id }

/-- Registration `CursorCache::store`: store a merged cursor under its id. -/
def CursorCache.store (c : CursorCache) (id : Int) (e : MergedCursorEntry) : CursorCache :=
  { c with merged := (id, e) :: c.merged }

/-- In-place mutation of a stored merged cursor (the shared
`ShardedClientCursor` advanced by `sendNextBatch` plus
`CursorCache::updateMaxTimeMS`). -/
def CursorCache.updateEntry (c : CursorCache) (id : Int) (e : MergedCursorEntry) : CursorCache :=
  { c with merged := c.merged.map fun p =>
      match p.1 == id with
      | true => (id, e)
      | false => p }

/-- Modelled from the spec: the Multi-Shard Cursor's ordered-batch retrieval
(`ShardedClientCursor::sendNextBatch` lives in `cursors.cpp`, outside this
fragment): send up to `ntoreturn` of the remaining documents (all of them when
`ntoreturn` is zero), advance the sent count, and report whether more data
remains. -/
def sendNextBatch (e : MergedCursorEntry) (ntoreturn : Nat) :
    Nat × Bool × MergedCursorEntry :=
  let docCount := if ntoreturn = 0 then e.remainingDocs else min ntoreturn e.remainingDocs
  let e' := { e with totalSent := e.totalSent + docCount,
                     remainingDocs := e.remainingDocs - docCount }
  (docCount, decide (0 < e'.remainingDocs), e')

/-! ## Get-more routing (strategy.cpp:411-509) -/

/-- Per-call inputs of `Strategy::getMore` that come from external
collaborators: the authorization outcome, the router-side elapsed time
(`getMoreTimer.millis()` at budget-update time), and — on the remote
passthrough path — whether the shard's reply still carries an open cursor. -/
structure GetMoreCtx : Type where
  authOk : Bool
  elapsedMillis : Int
  remoteHasMore : Bool
  deriving Repr, DecidableEq

inductive GetMoreResult : Type where
  | internalInconsistency
  | unauthorized
  | exceededTimeLimit
  | remoteReply (host : String) (hasMore : Bool)
  | batchReply (docCount startFrom : Nat) (cursorId : Int)
  | cursorNotFoundReply (docCount : Nat)
  deriving Repr, DecidableEq

/-- Router `Strategy::getMore`: result and updated cursor cache.  The order of the
steps follows the source: both-space lookup and the `massert( 17012, ... )`
duplicate-id check, then authorization, then the remote passthrough path, then
the merged path (expiry check before any fetch), else the cursor-not-found
reply with zero documents. -/
def getMore (ctx : GetMoreCtx) (cache : CursorCache) (id : Int) (ntoreturn : Nat) :
    GetMoreResult × CursorCache :=
  let host := cache.getRef id
  let cursor := cache.get id
  let cursorMaxTimeMS := cache.getMaxTimeMS id
  if cursor.isSome && !(host = "") then
    (GetMoreResult.internalInconsistency, cache)
  else if !ctx.authOk then
    (GetMoreResult.unauthorized, cache)
  else if host ≠ "" then
    let cache' := if ctx.remoteHasMore then cache else cache.removeRef id
    (GetMoreResult.remoteReply host ctx.remoteHasMore, cache')
  else
    match cursor with
    | some e =>
      if cursorMaxTimeMS = kMaxTimeCursorTimeLimitExpired then
        (GetMoreResult.exceededTimeLimit, cache.remove id)
      else
        let startFrom := e.totalSent
        let res := sendNextBatch e ntoreturn
        let docCount := res.1
        let hasMore := res.2.1
        let e' := res.2.2
        if hasMore then
          let e'' :=
            if cursorMaxTimeMS ≠ kMaxTimeCursorNoTimeLimit then
              let leftover := cursorMaxTimeMS - ctx.elapsedMillis
              { e' with maxTimeMS :=
                  if leftover ≤ 0 then kMaxTimeCursorTimeLimitExpired else leftover }
            else e'
          (GetMoreResult.batchReply docCount startFrom id, cache.updateEntry id e'')
        else
          (GetMoreResult.batchReply docCount startFrom 0, cache.remove id)
    | none => (GetMoreResult.cursorNotFoundReply 0, cache)

/-! ## Query routing (strategy.cpp:67-179) -/

/-- The remaining-budget computation at strategy.cpp:149-155: `cursorLeftoverMillis
= maxTimeMS - queryTimer.millis()`, with `0` meaning "no limit" and a
non-positive leftover stored as the "already expired" sentinel. -/
def initialCursorBudget (maxTimeMS elapsed : Int) : Int :=
  let leftover := maxTimeMS - elapsed
  if maxTimeMS = 0 then kMaxTimeCursorNoTimeLimit
  else if leftover ≤ 0 then kMaxTimeCursorTimeLimitExpired
  else leftover

/-- Inputs of `Strategy::queryOp`: wire-message fields plus the outcomes of the
external collaborators (authorization, `$maxTimeMS` parsing, the parallel
cluster cursor's initialization/shape, the single-shard reply message). -/
structure QueryCtx : Type where
  ns : String
  ntoreturn : Int
  authOk : Bool
  maxTimeParseOk : Bool
  maxTimeMS : Int
  elapsedMillis : Int
  systemIndexesTargeted : Bool
  initThrows : Option String
  isExplain : Bool
  isSharded : Bool
  newCursorId : Int
  resultDocs : Nat
  shardReply : String
  shardHost : String
  deriving Repr, DecidableEq

inductive QueryOpResult : Type where
  | unauthorized
  | commandRejected
  | invalidMaxTime
  | indexQueryReply
  | staleThrown (ns : String)
  | explainReply (millis : Int)
  | shardedReply (docCount startFrom : Nat) (cursorId : Int)
  | passthroughReply (reply host : String)
  deriving Repr, DecidableEq

/-- Router `Strategy::queryOp`: the reply produced and the cursor-cache entries the
call stores (`cursorCache.store` is its only cache interaction).  Branch order
follows the source: authorization, the `uassert 8010` command check, the
`$maxTimeMS` parse `uassert 17233`, the `system.indexes` redirect, cursor
initialization (which may throw a staleness error), explain, then the
sharded/single-shard split. -/
def queryOp (ctx : QueryCtx) : QueryOpResult × List (Int × MergedCursorEntry) :=
  if !ctx.authOk then (QueryOpResult.unauthorized, [])
  else if ctx.ntoreturn == 1 && nsContainsCmd ctx.ns then (QueryOpResult.commandRejected, [])
  else if !ctx.maxTimeParseOk then (QueryOpResult.invalidMaxTime, [])
  else if ctx.systemIndexesTargeted then (QueryOpResult.indexQueryReply, [])
  else
    match ctx.initThrows with
    | some ns => (QueryOpResult.staleThrown ns, [])
    | none =>
      if ctx.isExplain then (QueryOpResult.explainReply ctx.elapsedMillis, [])
      else if ctx.isSharded then
        let e0 : MergedCursorEntry :=
          { totalSent := 0, remainingDocs := ctx.resultDocs, maxTimeMS := 0 }
        let res := sendNextBatch e0 ctx.ntoreturn.toNat
        let docCount := res.1
        let hasMore := res.2.1
        let e1 := res.2.2
        if hasMore then
          let stored :=
            { e1 with maxTimeMS := initialCursorBudget ctx.maxTimeMS ctx.elapsedMillis }
          (QueryOpResult.shardedReply docCount 0 ctx.newCursorId,
           [(ctx.newCursorId, stored)])
        else (QueryOpResult.shardedReply docCount 0 0, [])
      else (QueryOpResult.passthroughReply ctx.shardReply ctx.shardHost, [])

/-! ## Helper lemmas -/

theorem lookup_filter_ne {β : Type} (l : List (Int × β)) (id : Int) :
    (l.filter fun p => p.1 != id).lookup id = none := by
  induction l with
  | nil => rfl
  | cons p t ih =>
    obtain ⟨k, v⟩ := p
    by_cases h : k = id
    · have hb : (((k, v) : Int × β).1 != id) = false := by simp [h]
      simp only [List.filter, hb]
      exact ih
    · have hb : (((k, v) : Int × β).1 != id) = true := by simp [h]
      have h2 : (id == k) = false := by simp [Ne.symm h]
      simp only [List.filter, hb, List.lookup, h2]
      exact ih

theorem lookup_map_update {β : Type} (l : List (Int × β)) (id : Int) (e : β)
    (h : (l.lookup id).isSome = true) :
    (l.map fun p =>
      match p.1 == id with
      | true => (id, e)
      | false => p).lookup id = some e := by
  induction l with
  | nil => simp [List.lookup] at h
  | cons p t ih =>
    obtain ⟨k, v⟩ := p
    by_cases hk : k = id
    · subst hk
      simp [List.lookup]
    · have h1 : (k == id) = false := by simp [hk]
      have h2 : (id == k) = false := by simp [Ne.symm hk]
      simp only [List.lookup, h2] at h
      simp only [List.map, h1, List.lookup, h2]
      exact ih h

/-! ## C6 -/

/-- C6: a command whose first element is a query-shaped object and that
carries a top-level read-preference field is unwrapped to the embedded query
object with the read-preference folded in as a `$queryOptions` sub-document;
in particular the wrapped ping command of the claim unwraps as stated. -/
theorem clientCommandOp_unwraps_query_payload
    (name : String) (embedded rest : BSONDoc) (rp : BSONValue)
    (hname : isQueryFieldName name = true)
    (hrp : getField ((name, BSONValue.obj embedded) :: rest) readPrefFieldName = some rp) :
    unwrapCommand ((name, BSONValue.obj embedded) :: rest) =
      embedded ++ [("$queryOptions", BSONValue.obj [(readPrefFieldName, rp)])] ∧
    unwrapCommand [("$query", BSONValue.obj [("ping", BSONValue.int 1)]),
                   ("$readPreference", BSONValue.obj [("mode", BSONValue.str "secondary")])] =
      [("ping", BSONValue.int 1),
       ("$queryOptions", BSONValue.obj
          [("$readPreference", BSONValue.obj [("mode", BSONValue.str "secondary")])])] := by
  constructor
  · simp [unwrapCommand, hname, hrp]
  · rfl

/-- Witness for C6 at the claim's own example. -/
theorem clientCommandOp_unwraps_query_payload_witness :
    unwrapCommand [("$query", BSONValue.obj [("ping", BSONValue.int 1)]),
                   ("$readPreference", BSONValue.obj [("mode", BSONValue.str "secondary")])] =
      [("ping", BSONValue.int 1)] ++
        [("$queryOptions", BSONValue.obj
           [(readPrefFieldName, BSONValue.obj [("mode", BSONValue.str "secondary")])])] :=
  (clientCommandOp_unwraps_query_payload "$query" [("ping", BSONValue.int 1)]
      [("$readPreference", BSONValue.obj [("mode", BSONValue.str "secondary")])]
      (BSONValue.obj [("mode", BSONValue.str "secondary")]) rfl rfl).1

/-! ## C7 -/

/-- C7: a string killop operand with a colon is split at the first colon, the
prefix names the shard contacted and the suffix is the forwarded local op id,
with no `err` field in the reply; a non-string operand or one without a colon
produces a reply with an `err` field and contacts no shard. -/
theorem handleSpecialNamespaces_killop (op : BSONValue) :
    (∀ s pre post, op = BSONValue.str s → splitAtFirst ':' s.data = some (pre, post) →
      (handleKillop op).contacted = some (String.mk pre, atoi post) ∧
      hasField (handleKillop op).reply "err" = false) ∧
    (∀ s, op = BSONValue.str s → splitAtFirst ':' s.data = none →
      hasField (handleKillop op).reply "err" = true ∧ (handleKillop op).contacted = none) ∧
    ((∀ s, op ≠ BSONValue.str s) →
      hasField (handleKillop op).reply "err" = true ∧ (handleKillop op).contacted = none) := by
  refine ⟨?_, ?_, ?_⟩
  · rintro s pre post rfl hsplit
    simp [handleKillop, hsplit, hasField, List.lookup]
  · rintro s rfl hsplit
    simp [handleKillop, hsplit, hasField, List.lookup]
  · intro h
    cases op with
    | str s => exact absurd rfl (h s)
    | int n => simp [handleKillop, hasField, List.lookup]
    | obj o => simp [handleKillop, hasField, List.lookup]

/-- Witness for C7: operand `"shardA:77"` contacts shard `"shardA"` with op id
`77`; operand `"bogus"` yields an `err` reply and contacts nothing. -/
theorem handleSpecialNamespaces_killop_witness :
    (handleKillop (BSONValue.str "shardA:77")).contacted = some ("shardA", 77) ∧
    hasField (handleKillop (BSONValue.str "bogus")).reply "err" = true ∧
    (handleKillop (BSONValue.str "bogus")).contacted = none := by
  have h1 := (handleSpecialNamespaces_killop (BSONValue.str "shardA:77")).1
      "shardA:77" "shardA".data "77".data rfl rfl
  have h2 := (handleSpecialNamespaces_killop (BSONValue.str "bogus")).2.1 "bogus" rfl rfl
  refine ⟨?_, h2.1, h2.2⟩
  rw [h1.1]
  decide

/-! ## C10 -/

/-- C10: every string killop operand containing a colon forwards a kill — the
suffix after the first colon is parsed by `atoi`, so a non-numeric or empty
suffix silently becomes op id `0` — and the reply carries no `err` field. -/
theorem killop_colon_operand_uses_atoi (s : String) (pre post : List Char)
    (hsplit : splitAtFirst ':' s.data = some (pre, post)) :
    (handleKillop (BSONValue.str s)).contacted = some (String.mk pre, atoi post) ∧
    hasField (handleKillop (BSONValue.str s)).reply "err" = false := by
  simp [handleKillop, hsplit, hasField, List.lookup]

/-- Witness for C10: `"shardA:xyz"` and `"shardA:"` both contact `"shardA"`
with op id `0` and no `err` field. -/
theorem killop_colon_operand_uses_atoi_witness :
    (handleKillop (BSONValue.str "shardA:xyz")).contacted = some ("shardA", 0) ∧
    hasField (handleKillop (BSONValue.str "shardA:xyz")).reply "err" = false ∧
    (handleKillop (BSONValue.str "shardA:")).contacted = some ("shardA", 0) := by
  have h1 := killop_colon_operand_uses_atoi "shardA:xyz" "shardA".data "xyz".data rfl
  have h2 := killop_colon_operand_uses_atoi "shardA:" "shardA".data [] rfl
  refine ⟨?_, h1.2, ?_⟩
  · rw [h1.1]
    decide
  · rw [h2.1]
    decide

/-! ## C1 -/

/-- Counterexample to C1 as stated: under persistent staleness the loop
executes 6 attempts, not 5, and the fourth forced refresh (tagged with failed
attempt index 4) happens between the fifth and the sixth — that is, final —
attempt, so a forced refresh does occur before the final attempt. -/
theorem commandRetry_five_attempts_counterexample :
    (clientCommandRetryLoop (fun _ => AttemptResult.stale "test.coll") "test.$cmd").attempts
        = 6 ∧
    (clientCommandRetryLoop (fun _ => AttemptResult.stale "test.coll") "test.$cmd").refreshes
        = [(1, "test.coll"), (2, "test.coll"), (3, "test.coll"), (4, "test.coll")] ∧
    (clientCommandRetryLoop (fun _ => AttemptResult.stale "test.coll") "test.$cmd").outcome
        = LoopOutcome.rethrownStale "test.coll" := by
  refine ⟨rfl, rfl, rfl⟩

/-- C1 (amended): under persistent staleness the loop executes exactly 6
attempts and re-raises the staleness error; it performs exactly 4 forced
refreshes, after failed attempts 1-4 (0-based), i.e. before each of attempts
3-6 including the final one; only the first retry skips the forced refresh. -/
theorem commandRetry_persistent_staleness (exec : Nat → AttemptResult) (qns ns : String)
    (h : ∀ i, exec i = AttemptResult.stale ns) :
    (clientCommandRetryLoop exec qns).attempts = 6 ∧
    (clientCommandRetryLoop exec qns).outcome = LoopOutcome.rethrownStale ns ∧
    (clientCommandRetryLoop exec qns).refreshes =
      [(1, if ns = "" then qns else ns), (2, if ns = "" then qns else ns),
       (3, if ns = "" then qns else ns), (4, if ns = "" then qns else ns)] ∧
    (clientCommandRetryLoop exec qns).checks =
      [(0, if ns = "" then qns else ns), (1, if ns = "" then qns else ns),
       (2, if ns = "" then qns else ns), (3, if ns = "" then qns else ns),
       (4, if ns = "" then qns else ns)] := by
  have hfun : exec = fun _ => AttemptResult.stale ns := funext h
  subst hfun
  exact ⟨rfl, rfl, rfl, rfl⟩

/-- Witness for C1 (amended) at a concrete persistently-stale execution. -/
theorem commandRetry_persistent_staleness_witness :
    (clientCommandRetryLoop (fun _ => AttemptResult.stale "a.b") "d.$cmd").attempts = 6 ∧
    (clientCommandRetryLoop (fun _ => AttemptResult.stale "a.b") "d.$cmd").outcome =
      LoopOutcome.rethrownStale "a.b" := by
  have h := commandRetry_persistent_staleness (fun _ => AttemptResult.stale "a.b")
      "d.$cmd" "a.b" (fun _ => rfl)
  exact ⟨h.1, h.2.1⟩

/-! ## C9 -/

theorem retryGo_success_eq (exec : Nat → AttemptResult) (qns : String) (i l : Nat)
    (hex : exec i = AttemptResult.success) :
    retryGo exec qns i l = ⟨i + 1, [], [], LoopOutcome.replied⟩ := by
  cases l <;> simp [retryGo, hex]

theorem retryGo_otherError_eq (exec : Nat → AttemptResult) (qns : String) (i l : Nat)
    (hex : exec i = AttemptResult.otherError) :
    retryGo exec qns i l = ⟨i + 1, [], [], LoopOutcome.errorReplied⟩ := by
  cases l <;> simp [retryGo, hex]

theorem retryGo_stale_succ_eq (exec : Nat → AttemptResult) (qns : String) (i l' : Nat)
    (ns : String) (hex : exec i = AttemptResult.stale ns) :
    retryGo exec qns i (l' + 1) =
      ⟨(retryGo exec qns (i + 1) l').attempts,
       (i, if ns = "" then qns else ns) :: (retryGo exec qns (i + 1) l').checks,
       (if l' < 4 then [(i, if ns = "" then qns else ns)] else []) ++
         (retryGo exec qns (i + 1) l').refreshes,
       (retryGo exec qns (i + 1) l').outcome⟩ := by
  simp [retryGo, hex]

theorem retryGo_checks_sound (exec : Nat → AttemptResult) (qns : String) :
    ∀ l i p, p ∈ (retryGo exec qns i l).checks →
      ∃ ens, exec p.1 = AttemptResult.stale ens ∧
        p.2 = if ens = "" then qns else ens := by
  intro l
  induction l with
  | zero =>
    intro i p hp
    cases hex : exec i with
    | success => rw [retryGo_success_eq exec qns i 0 hex] at hp; simp at hp
    | stale ns => simp [retryGo, hex] at hp
    | otherError => rw [retryGo_otherError_eq exec qns i 0 hex] at hp; simp at hp
  | succ l' ih =>
    intro i p hp
    cases hex : exec i with
    | success => rw [retryGo_success_eq exec qns i (l' + 1) hex] at hp; simp at hp
    | stale ns =>
      rw [retryGo_stale_succ_eq exec qns i l' ns hex] at hp
      rcases List.mem_cons.mp hp with h | h
      · subst h
        exact ⟨ns, hex, rfl⟩
      · exact ih (i + 1) p h
    | otherError => rw [retryGo_otherError_eq exec qns i (l' + 1) hex] at hp; simp at hp

theorem retryGo_refreshes_subset (exec : Nat → AttemptResult) (qns : String) :
    ∀ l i, (retryGo exec qns i l).refreshes ⊆ (retryGo exec qns i l).checks := by
  intro l
  induction l with
  | zero =>
    intro i p hp
    cases hex : exec i with
    | success => rw [retryGo_success_eq exec qns i 0 hex] at hp; simp at hp
    | stale ns => simp [retryGo, hex] at hp
    | otherError => rw [retryGo_otherError_eq exec qns i 0 hex] at hp; simp at hp
  | succ l' ih =>
    intro i p hp
    cases hex : exec i with
    | success => rw [retryGo_success_eq exec qns i (l' + 1) hex] at hp; simp at hp
    | stale ns =>
      rw [retryGo_stale_succ_eq exec qns i l' ns hex] at hp ⊢
      rcases List.mem_append.mp hp with h | h
      · by_cases h4 : l' < 4
        · rw [if_pos h4] at h
          rcases List.mem_singleton.mp h with rfl
          exact List.mem_cons_self _ _
        · rw [if_neg h4] at h
          simp at h
      · exact List.mem_cons_of_mem _ (ih (i + 1) h)
    | otherError => rw [retryGo_otherError_eq exec qns i (l' + 1) hex] at hp; simp at hp

/-- C9: whenever a caught staleness error carries an empty namespace, the
connection-version check and the forced refresh on that retry use the
command's own request namespace `q.ns` instead; provided the request namespace
is itself non-empty (a command namespace always is), no check or refresh ever
uses an empty namespace string. -/
theorem commandRetry_empty_stale_ns_fallback (exec : Nat → AttemptResult) (qns : String)
    (hq : qns ≠ "") :
    (∀ p ∈ (clientCommandRetryLoop exec qns).checks,
       (exec p.1 = AttemptResult.stale "" → p.2 = qns) ∧ p.2 ≠ "") ∧
    (∀ p ∈ (clientCommandRetryLoop exec qns).refreshes,
       (exec p.1 = AttemptResult.stale "" → p.2 = qns) ∧ p.2 ≠ "") := by
  have key : ∀ p ∈ (clientCommandRetryLoop exec qns).checks,
      (exec p.1 = AttemptResult.stale "" → p.2 = qns) ∧ p.2 ≠ "" := by
    intro p hp
    obtain ⟨ens, hex, hval⟩ := retryGo_checks_sound exec qns 5 0 p hp
    constructor
    · intro h0
      have hee : AttemptResult.stale ens = AttemptResult.stale "" := hex.symm.trans h0
      have : ens = "" := by injection hee
      subst this
      simpa using hval
    · by_cases he : ens = ""
      · subst he
        simp only [if_pos rfl] at hval
        rw [hval]
        exact hq
      · rw [hval, if_neg he]
        exact he
  exact ⟨key, fun p hp => key p (retryGo_refreshes_subset exec qns 5 0 hp)⟩

/-- Witness for C9: a persistently stale execution whose exception carries an
empty namespace checks and refreshes against the command namespace. -/
theorem commandRetry_empty_stale_ns_fallback_witness :
    ((4 : Nat), "test.$cmd") ∈
      (clientCommandRetryLoop (fun _ => AttemptResult.stale "") "test.$cmd").refreshes ∧
    ((4 : Nat), "test.$cmd").2 = "test.$cmd" ∧ ((4 : Nat), "test.$cmd").2 ≠ "" := by
  have hmem : ((4 : Nat), "test.$cmd") ∈
      (clientCommandRetryLoop (fun _ => AttemptResult.stale "") "test.$cmd").refreshes := by
    decide
  have h := commandRetry_empty_stale_ns_fallback (fun _ => AttemptResult.stale "")
      "test.$cmd" (by decide)
  have h2 := h.2 _ hmem
  exact ⟨hmem, h2.1 rfl, h2.2⟩

/-! ## C3 -/

theorem writeOpRun_all_unordered (hadError : Nat → Bool) :
    ∀ reqs : List BatchSubRequest, ∀ i, (∀ r ∈ reqs, r.ordered = false) →
      (writeOpRun hadError reqs i).map ExecutedSub.idx = List.range' i reqs.length := by
  intro reqs
  induction reqs with
  | nil => intro i _; rfl
  | cons req rest ih =>
    intro i h
    have hreq : req.ordered = false := h req (List.mem_cons_self _ _)
    rw [List.length_cons, List.range'_succ i rest.length 1]
    simp only [writeOpRun, hreq, Bool.false_and, if_neg (Bool.false_ne_true), List.map_cons]
    exact congrArg (i :: ·) (ih (i + 1) fun r hr => h r (List.mem_cons_of_mem _ hr))

theorem writeOpRun_ordered_stop (hadError : Nat → Bool) :
    ∀ reqs : List BatchSubRequest, ∀ i k, (∀ r ∈ reqs, r.ordered = true) →
      1 ≤ k → k ≤ reqs.length →
      hadError (i + (k - 1)) = true →
      (∀ j, j < k - 1 → hadError (i + j) = false) →
      (writeOpRun hadError reqs i).map ExecutedSub.idx = List.range' i k := by
  intro reqs
  induction reqs with
  | nil =>
    intro i k _ hk1 hkn _ _
    exact absurd (Nat.le_trans hk1 hkn) (by simp)
  | cons req rest ih =>
    intro i k hord hk1 hkn herr hfirst
    have hreq : req.ordered = true := hord req (List.mem_cons_self _ _)
    rcases Nat.lt_or_ge 1 k with h2 | h1
    · -- k ≥ 2: the head sub-request has no error, execution continues
      have h0 : hadError i = false := by
        have := hfirst 0 (by omega)
        simpa using this
      obtain ⟨kk, rfl⟩ : ∃ kk, k = kk + 1 := ⟨k - 1, by omega⟩
      have hkk1 : 1 ≤ kk := by omega
      rw [List.range'_succ i kk 1]
      simp only [writeOpRun, hreq, Bool.true_and, h0, if_neg (Bool.false_ne_true),
        List.map_cons]
      refine congrArg (i :: ·) (ih (i + 1) kk
        (fun r hr => hord r (List.mem_cons_of_mem _ hr)) hkk1
        (by simpa using hkn) ?_ ?_)
      · have harith : (i + 1) + (kk - 1) = i + kk := by omega
        rw [harith]
        simpa using herr
      · intro j hj
        have harith : (i + 1) + j = i + (j + 1) := by omega
        rw [harith]
        exact hfirst (j + 1) (by omega)
    · -- k = 1: the head sub-request errors and the loop breaks
      have hk : k = 1 := by omega
      subst hk
      have herr' : hadError i = true := by simpa using herr
      simp only [writeOpRun, hreq, Bool.true_and, herr', if_pos rfl, List.map_cons,
        List.map_nil, List.range'_succ i 0 1]
      rfl

/-- C3: for an all-ordered batch whose first non-write-concern error is
reported by sub-operation `k` (1-indexed, so 0-based index `k - 1`), exactly
sub-operations `1..k` execute, in order — the executed index list is
`range k` — so `k+1..n` never execute; for an all-unordered batch all `n`
sub-operations execute regardless of errors. -/
theorem writeOp_ordered_stops_unordered_continues
    (hadError : Nat → Bool) (reqs : List BatchSubRequest) :
    (∀ k, (∀ r ∈ reqs, r.ordered = true) → 1 ≤ k → k ≤ reqs.length →
        hadError (k - 1) = true → (∀ j, j < k - 1 → hadError j = false) →
        (writeOp hadError reqs).map ExecutedSub.idx = List.range k) ∧
    ((∀ r ∈ reqs, r.ordered = false) →
        (writeOp hadError reqs).map ExecutedSub.idx = List.range reqs.length) := by
  constructor
  · intro k hord hk1 hkn herr hfirst
    rw [List.range_eq_range' k]
    exact writeOpRun_ordered_stop hadError reqs 0 k hord hk1 hkn
      (by simpa using herr) (fun j hj => by simpa using hfirst j hj)
  · intro h
    rw [List.range_eq_range' reqs.length]
    exact writeOpRun_all_unordered hadError reqs 0 h

/-- Witness for C3: three ordered sub-operations with the error at the second
execute exactly the first two; three unordered ones all execute. -/
theorem writeOp_ordered_stops_unordered_continues_witness :
    (writeOp (fun i => i == 1)
        [⟨"db.a", true⟩, ⟨"db.a", true⟩, ⟨"db.a", true⟩]).map ExecutedSub.idx =
      List.range 2 ∧
    (writeOp (fun i => i == 1)
        [⟨"db.a", false⟩, ⟨"db.a", false⟩, ⟨"db.a", false⟩]).map ExecutedSub.idx =
      List.range 3 := by
  constructor
  · exact (writeOp_ordered_stops_unordered_continues (fun i => i == 1)
        [⟨"db.a", true⟩, ⟨"db.a", true⟩, ⟨"db.a", true⟩]).1 2 (by decide)
      (by decide) (by decide) (by decide)
      (fun j hj => by
        have : j = 0 := by omega
        subst this
        rfl)
  · exact (writeOp_ordered_stops_unordered_continues (fun i => i == 1)
        [⟨"db.a", false⟩, ⟨"db.a", false⟩, ⟨"db.a", false⟩]).2 (by decide)

/-! ## C2 -/

theorem queryOp_created_shape (ctx : QueryCtx) :
    (queryOp ctx).2 = [] ∨
      (ctx.isSharded = true ∧ ∃ e, (queryOp ctx).2 = [(ctx.newCursorId, e)] ∧
        e.maxTimeMS = initialCursorBudget ctx.maxTimeMS ctx.elapsedMillis) := by
  simp only [queryOp]
  split
  · exact Or.inl rfl
  split
  · exact Or.inl rfl
  split
  · exact Or.inl rfl
  split
  · exact Or.inl rfl
  split
  · exact Or.inl rfl
  split
  · exact Or.inl rfl
  split
  · next hsh =>
    split
    · exact Or.inr ⟨by simpa using hsh, _, rfl, rfl⟩
    · exact Or.inl rfl
  · exact Or.inl rfl

/-- C2: on the single-shard path the Query Router stores no cursor-cache
entry and forwards the shard's own reply message and host verbatim; across
every path of one query operation at most one entry is created, and a
non-empty creation list implies the cursor was sharded. -/
theorem queryOp_single_shard_no_cache (ctx : QueryCtx) :
    (ctx.authOk = true → (ctx.ntoreturn == 1 && nsContainsCmd ctx.ns) = false →
     ctx.maxTimeParseOk = true → ctx.systemIndexesTargeted = false →
     ctx.initThrows = none → ctx.isExplain = false → ctx.isSharded = false →
     queryOp ctx = (QueryOpResult.passthroughReply ctx.shardReply ctx.shardHost, [])) ∧
    (queryOp ctx).2.length ≤ 1 ∧
    ((queryOp ctx).2 ≠ [] → ctx.isSharded = true) := by
  refine ⟨?_, ?_, ?_⟩
  · intro h1 h2 h3 h4 h5 h6 h7
    simp [queryOp, h1, h2, h3, h4, h5, h6, h7]
  · rcases queryOp_created_shape ctx with h | ⟨_, e, he, _⟩
    · rw [h]; simp
    · rw [he]; simp
  · intro hne
    rcases queryOp_created_shape ctx with h | ⟨hsh, _⟩
    · exact absurd h hne
    · exact hsh

/-- Witness for C2 at a concrete single-shard query. -/
theorem queryOp_single_shard_no_cache_witness :
    queryOp ⟨"test.coll", 10, true, true, 0, 5, false, none, false, false, 7, 0,
             "shard-reply-msg", "hostA:27017"⟩ =
      (QueryOpResult.passthroughReply "shard-reply-msg" "hostA:27017", []) :=
  (queryOp_single_shard_no_cache ⟨"test.coll", 10, true, true, 0, 5, false, none,
      false, false, 7, 0, "shard-reply-msg", "hostA:27017"⟩).1
    rfl (by decide) rfl rfl rfl rfl rfl

/-! ## C5 -/

theorem queryOp_created_budget (ctx : QueryCtx) :
    ∀ p ∈ (queryOp ctx).2,
      p.2.maxTimeMS = initialCursorBudget ctx.maxTimeMS ctx.elapsedMillis := by
  intro p hp
  rcases queryOp_created_shape ctx with h | ⟨_, e, he, hbud⟩
  · rw [h] at hp
    simp at hp
  · rw [he] at hp
    rcases List.mem_singleton.mp hp with rfl
    simpa using hbud

theorem getMaxTimeMS_of_get (cache : CursorCache) (id : Int) (e : MergedCursorEntry)
    (hget : cache.get id = some e) : cache.getMaxTimeMS id = e.maxTimeMS := by
  unfold CursorCache.get at hget
  unfold CursorCache.getMaxTimeMS
  rw [hget]

/-- C5: (a) every cursor-cache entry a query stores carries the budget: "no
limit" when no `$maxTimeMS` hint was given (`0`), the "already expired"
sentinel when `hint - elapsed` is non-positive, and `hint - elapsed`
otherwise; (b) a get-more that leaves more data under a finite budget stores
`previous - elapsedThisCall`, clamped to the "already expired" sentinel when
non-positive. -/
theorem cursor_time_budget (ctx : QueryCtx) (g : GetMoreCtx) (cache : CursorCache)
    (id : Int) (n : Nat) (e : MergedCursorEntry)
    (hget : cache.get id = some e) (href : cache.getRef id = "")
    (hauth : g.authOk = true)
    (hnexp : e.maxTimeMS ≠ kMaxTimeCursorTimeLimitExpired)
    (hfin : e.maxTimeMS ≠ kMaxTimeCursorNoTimeLimit)
    (hmore : (sendNextBatch e n).2.1 = true) :
    (∀ p ∈ (queryOp ctx).2,
       (ctx.maxTimeMS = 0 → p.2.maxTimeMS = kMaxTimeCursorNoTimeLimit) ∧
       (ctx.maxTimeMS ≠ 0 → ctx.maxTimeMS - ctx.elapsedMillis ≤ 0 →
          p.2.maxTimeMS = kMaxTimeCursorTimeLimitExpired) ∧
       (ctx.maxTimeMS ≠ 0 → 0 < ctx.maxTimeMS - ctx.elapsedMillis →
          p.2.maxTimeMS = ctx.maxTimeMS - ctx.elapsedMillis)) ∧
    (∃ e', ((getMore g cache id n).2).get id = some e' ∧
       e'.maxTimeMS = (if e.maxTimeMS - g.elapsedMillis ≤ 0
                       then kMaxTimeCursorTimeLimitExpired
                       else e.maxTimeMS - g.elapsedMillis)) := by
  constructor
  · intro p hp
    have hb := queryOp_created_budget ctx p hp
    refine ⟨?_, ?_, ?_⟩
    · intro h0
      rw [hb]
      simp [initialCursorBudget, h0]
    · intro h0 hle
      rw [hb]
      simp only [initialCursorBudget, if_neg h0, if_pos hle]
    · intro h0 hpos
      rw [hb]
      simp only [initialCursorBudget, if_neg h0]
      rw [if_neg (by omega)]
  · have hmax := getMaxTimeMS_of_get cache id e hget
    refine ⟨{ (sendNextBatch e n).2.2 with
        maxTimeMS := if e.maxTimeMS - g.elapsedMillis ≤ 0
                     then kMaxTimeCursorTimeLimitExpired
                     else e.maxTimeMS - g.elapsedMillis }, ?_, rfl⟩
    have hstep : (getMore g cache id n).2 =
        cache.updateEntry id { (sendNextBatch e n).2.2 with
          maxTimeMS := if e.maxTimeMS - g.elapsedMillis ≤ 0
                       then kMaxTimeCursorTimeLimitExpired
                       else e.maxTimeMS - g.elapsedMillis } := by
      simp [getMore, href, hget, hauth, hmax, hnexp, hfin, hmore]
    rw [hstep]
    have hsome : (cache.merged.lookup id).isSome = true := by
      unfold CursorCache.get at hget
      simp [hget]
    exact lookup_map_update cache.merged id _ hsome

/-- Witness for C5: a query hint of 100ms with 30ms elapsed stores budget 70;
a get-more on budget 70 taking 80ms clamps to the "already expired" sentinel. -/
theorem cursor_time_budget_witness :
    ((queryOp ⟨"test.coll", 2, true, true, 100, 30, false, none, false, true, 9, 5,
        "", ""⟩).2.map fun p => p.2.maxTimeMS) = [70] ∧
    (∃ e', ((getMore ⟨true, 80, true⟩ ⟨[], [(9, ⟨2, 3, 70⟩)]⟩ 9 2).2).get 9 = some e' ∧
       e'.maxTimeMS = kMaxTimeCursorTimeLimitExpired) := by
  have h := cursor_time_budget
      ⟨"test.coll", 2, true, true, 100, 30, false, none, false, true, 9, 5, "", ""⟩
      ⟨true, 80, true⟩ ⟨[], [(9, ⟨2, 3, 70⟩)]⟩ 9 2 ⟨2, 3, 70⟩
      rfl rfl rfl (by decide) (by decide) (by decide)
  constructor
  · have hone : ∀ p ∈ (queryOp ⟨"test.coll", 2, true, true, 100, 30, false, none,
        false, true, 9, 5, "", ""⟩).2, p.2.maxTimeMS = (70 : Int) := fun p hp => by
      simpa using (h.1 p hp).2.2 (by decide) (by decide)
    decide
  · obtain ⟨e', he1, he2⟩ := h.2
    exact ⟨e', he1, by rw [he2]; decide⟩

/-! ## C4 -/

/-- C4: a get-more on a merged cursor whose stored budget is the "already
expired" sentinel evicts the entry and fails with the time-limit error before
any batch is fetched (the result carries no documents and the cache change is
exactly the eviction); a subsequent get-more with the same identifier replies
with the cursor-not-found flag and zero documents. -/
theorem getMore_expired_then_not_found (g g' : GetMoreCtx) (cache : CursorCache)
    (id : Int) (n n' : Nat) (e : MergedCursorEntry)
    (hget : cache.get id = some e) (href : cache.getRef id = "")
    (hauth : g.authOk = true) (hauth' : g'.authOk = true)
    (hexp : e.maxTimeMS = kMaxTimeCursorTimeLimitExpired) :
    (getMore g cache id n).1 = GetMoreResult.exceededTimeLimit ∧
    (getMore g cache id n).2 = cache.remove id ∧
    (getMore g' (getMore g cache id n).2 id n').1 = GetMoreResult.cursorNotFoundReply 0 := by
  have hmax := getMaxTimeMS_of_get cache id e hget
  have h1 : getMore g cache id n = (GetMoreResult.exceededTimeLimit, cache.remove id) := by
    simp [getMore, href, hget, hauth, hmax, hexp]
  have hget2 : (cache.remove id).get id = none := lookup_filter_ne cache.merged id
  have href2 : (cache.remove id).getRef id = "" := href
  refine ⟨by rw [h1], by rw [h1], ?_⟩
  rw [h1]
  simp [getMore, hget2, href2, hauth']

/-- Witness for C4 at a concrete expired cursor. -/
theorem getMore_expired_then_not_found_witness :
    (getMore ⟨true, 0, true⟩ ⟨[], [(3, ⟨2, 4, kMaxTimeCursorTimeLimitExpired⟩)]⟩ 3 1).1 =
      GetMoreResult.exceededTimeLimit ∧
    (getMore ⟨true, 5, true⟩
        (getMore ⟨true, 0, true⟩ ⟨[], [(3, ⟨2, 4, kMaxTimeCursorTimeLimitExpired⟩)]⟩ 3 1).2
        3 1).1 = GetMoreResult.cursorNotFoundReply 0 := by
  have h := getMore_expired_then_not_found ⟨true, 0, true⟩ ⟨true, 5, true⟩
      ⟨[], [(3, ⟨2, 4, kMaxTimeCursorTimeLimitExpired⟩)]⟩ 3 1 1
      ⟨2, 4, kMaxTimeCursorTimeLimitExpired⟩ rfl rfl rfl rfl rfl
  exact ⟨h.1, h.2.2⟩

/-! ## C8 -/

/-- C8: a cursor id resolving in both spaces (a merged entry exists and the
remote reference is a non-empty host) makes the get-more fail with the
internal-inconsistency assertion, leaving the cache untouched; when the two
spaces are disjoint this error is unreachable. -/
theorem getMore_dual_resolution (g : GetMoreCtx) (cache : CursorCache) (id : Int) (n : Nat) :
    ((cache.get id).isSome = true → cache.getRef id ≠ "" →
       (getMore g cache id n).1 = GetMoreResult.internalInconsistency ∧
       (getMore g cache id n).2 = cache) ∧
    ((∀ j : Int, ¬((cache.get j).isSome = true ∧ cache.getRef j ≠ "")) →
       (getMore g cache id n).1 ≠ GetMoreResult.internalInconsistency) := by
  constructor
  · intro h1 h2
    constructor <;> simp [getMore, h1, h2]
  · intro hdisj
    have hid := hdisj id
    rcases hget : cache.get id with _ | e
    · cases hauthv : g.authOk
      · simp [getMore, hget, hauthv]
      · by_cases hh : cache.getRef id = ""
        · simp [getMore, hget, hauthv, hh]
        · simp [getMore, hget, hauthv, hh]
    · have hh : cache.getRef id = "" := by
        by_contra hne
        exact hid ⟨by simp [hget], hne⟩
      cases hauthv : g.authOk
      · simp [getMore, hget, hauthv, hh]
      · simp only [getMore, hget, hh]
        split_ifs <;> simp_all

/-- Witness for C8: an id stored both as a remote reference and as a merged
cursor triggers the inconsistency error and leaves the cache unchanged. -/
theorem getMore_dual_resolution_witness :
    (getMore ⟨true, 0, true⟩ ⟨[(5, "hostA:27017")], [(5, ⟨0, 3, -2⟩)]⟩ 5 1).1 =
      GetMoreResult.internalInconsistency ∧
    (getMore ⟨true, 0, true⟩ ⟨[(5, "hostA:27017")], [(5, ⟨0, 3, -2⟩)]⟩ 5 1).2 =
      ⟨[(5, "hostA:27017")], [(5, ⟨0, 3, -2⟩)]⟩ :=
  (getMore_dual_resolution ⟨true, 0, true⟩
      ⟨[(5, "hostA:27017")], [(5, ⟨0, 3, -2⟩)]⟩ 5 1).1 (by decide) (by decide)

end MongoS
